import Mathlib

/-!
Verification development for the order-discovery and task-orchestration core
of the iexec-integration repository, shallowly embedded from
src/packages/frontend/src/services/iexecService.ts (the TEE-enabled service,
which the specification's claims cite by line number).

External collaborators (the iExec SDK orderbook fetches, order signing,
matchOrders, deal/task queries, HTTP result fetch, and the ECMAScript
JSON.parse / parseFloat builtins) are modelled as explicit inputs (oracles)
to the embedded functions; everything the repository's own code does with
those results is translated directly from the source.
-/

set_option autoImplicit false

namespace IExecIntegration

/-- Local task lifecycle model: the TypeScript union
'pending' | 'running' | 'completed' | 'failed' from TEETaskResult.status
(src/frontend/src/types/iexec.ts). It has exactly these four members. -/
inductive LocalStatus where
  | pending
  | running
  | completed
  | failed
deriving DecidableEq, Repr

/-- Workerpool order fields the service reads. The source fields arrive as
strings from the SDK; the numeric fields here model the values the service
computes from them: category via parseInt(order.category), price via
parseInt(order.workerpoolprice), and the capability tag via BigInt(order.tag)
(a hex bitset, modelled as a natural number). -/
structure WorkerpoolOrder where
  workerpool : String
  category : Int
  tag : Nat
  workerpoolprice : Int
deriving DecidableEq, Repr

/-- Orderbook entry wrapping a workerpool order; remaining models
parseInt(orderEntry.remaining) as the service computes it. -/
structure WorkerpoolOrderEntry where
  order : WorkerpoolOrder
  remaining : Int
deriving DecidableEq, Repr

/-- App order fields the service reads; appprice models
parseInt(order.appprice). -/
structure AppOrder where
  app : String
  appprice : Int
  volume : Int
  tag : Nat
deriving DecidableEq, Repr

/-- Orderbook entry wrapping an app order. -/
structure AppOrderEntry where
  order : AppOrder
  remaining : Int
deriving DecidableEq, Repr

/-- Dataset order fields the service reads; datasetprice = 0 models the
source check (datasetprice === \x270\x27 || datasetprice === 0). -/
structure DatasetOrder where
  dataset : String
  datasetprice : Int
deriving DecidableEq, Repr

/-- Orderbook entry wrapping a dataset order. -/
structure DatasetOrderEntry where
  order : DatasetOrder
  remaining : Int
deriving DecidableEq, Repr

/-- The TEE-capability test from getWorkerpoolOrder:
hasTeeTag = (BigInt(tag) & BigInt(0x3)) !== BigInt(0), i.e. the offer tag
intersects the two-bit mask 0x3 (TEE bit 0x1, SCONE bit 0x2). -/
def hasTeeTag (tag : Nat) : Bool := (tag &&& 3) != 0

/-- The workerpool orderbook filter predicate from getWorkerpoolOrder:
remaining > 0 && hasTeeTag (the same predicate is used on the debug
orderbook and on the general orderbook). -/
def teeEligible (e : WorkerpoolOrderEntry) : Bool :=
  decide (0 < e.remaining) && hasTeeTag e.order.tag

/-- Stable minimum-by-price selection: models the source pattern
orders.sort((a, b) => price(a) - price(b)) followed by taking element 0.
JavaScript sort is stable, so the result is the first-seen entry among
those of minimum price; ties keep the earlier entry. -/
def pickCheapestBy {α : Type} (price : α → Int) : List α → Option α
  | [] => none
  | e :: rest =>
    match pickCheapestBy price rest with
    | none => some e
    | some m => if price e ≤ price m then some e else some m

/-- Error message thrown by getWorkerpoolOrder when no eligible TEE
workerpool order is found (or the orderbook fetch itself fails). -/
def noTeePoolsMsg : String :=
  "No TEE-enabled workerpools with the required capabilities (TEE+SCONE tags) are currently available on the Bellecour network. TEE infrastructure may be temporarily offline. Please try again later or contact iExec support."

/-- Embedding of getWorkerpoolOrder (iexecService.ts lines 409-502).
Inputs model the two orderbook fetches: the debug-workerpool orderbook and
the general orderbook; none models the fetch throwing (caught in the
source: a debug failure falls through to the general search, a general
failure falls through to the final throw).
The debug path takes the first entry passing teeEligible; the general path
takes the cheapest entry passing teeEligible (stable sort by price, element
0); if neither yields an order the method throws noTeePoolsMsg. -/
def getWorkerpoolOrder (debugBook generalBook : Option (List WorkerpoolOrderEntry)) :
    Except String WorkerpoolOrder :=
  let debugPick : Option WorkerpoolOrderEntry :=
    match debugBook with
    | none => none
    | some orders =>
      if orders.length > 0 then
        match orders.filter teeEligible with
        | e :: _ => some e
        | [] => none
      else none
  match debugPick with
  | some e => .ok e.order
  | none =>
    match generalBook with
    | none => .error noTeePoolsMsg
    | some orders =>
      if orders.length > 0 then
        match pickCheapestBy (fun e : WorkerpoolOrderEntry => e.order.workerpoolprice) (orders.filter teeEligible) with
        | some e => .ok e.order
        | none => .error noTeePoolsMsg
      else .error noTeePoolsMsg

/-- Error message thrown by getAppOrder when the app orderbook is empty or
its fetch fails. -/
def noAppOrdersMsg (appAddress : String) : String :=
  "No app orders found for " ++ appAddress ++ ". Please contact the app owner to publish orders on the iExec marketplace, or create orders using the iExec CLI with the app owner\x27s wallet."

/-- Embedding of getAppOrder (iexecService.ts lines 360-407). The input
models the app orderbook fetch (none = fetch threw; caught in the source
and followed by the final throw). Entries with remaining > 0 are preferred
and the cheapest of them is chosen (stable sort by appprice, element 0);
when no entry has remaining > 0 the source takes the first entry of the
book anyway; an empty book or a failed fetch throws. -/
def getAppOrder (appAddress : String) (book : Option (List AppOrderEntry)) :
    Except String AppOrder :=
  match book with
  | none => .error (noAppOrdersMsg appAddress)
  | some [] => .error (noAppOrdersMsg appAddress)
  | some (first :: rest) =>
    let availableOrders := (first :: rest).filter (fun e => decide (0 < e.remaining))
    match pickCheapestBy (fun e => e.order.appprice) availableOrders with
    | some e => .ok e.order
    | none => .ok first.order

/-- Error message thrown by getDatasetOrder when no dataset order is
available. -/
def noDatasetOrdersMsg (datasetAddress : String) : String :=
  "No available orders found for protected data " ++ datasetAddress ++ ". Please ensure the data owner has published orders."

/-- Embedding of getDatasetOrder (iexecService.ts lines 504-526). The input
models the dataset orderbook fetch (none = fetch threw; caught and followed
by the final throw). A zero-price order is preferred (the first one found);
otherwise the first entry of the book is returned; remaining volume and
price ranking are not consulted. -/
def getDatasetOrder (datasetAddress : String) (book : Option (List DatasetOrderEntry)) :
    Except String DatasetOrder :=
  match book with
  | none => .error (noDatasetOrdersMsg datasetAddress)
  | some [] => .error (noDatasetOrdersMsg datasetAddress)
  | some (first :: rest) =>
    match (first :: rest).find? (fun e => e.order.datasetprice == 0) with
    | some e => .ok e.order
    | none => .ok first.order

/-! Model of JavaScript numeric values and of the two ECMAScript builtins
the result parser relies on (parseFloat and JSON.parse). JavaScript numbers
are modelled as exact rationals extended with infinities and NaN; every
payload appearing in the claims has an exact rational value. -/

/-- JavaScript number model: a finite value (exact rational), a signed
infinity, or NaN. -/
inductive JsNum where
  | num (q : ℚ)
  | inf (neg : Bool)
  | nan
deriving DecidableEq, Repr

/-- List of the decimal digits of a character run. -/
def natOfDigits (ds : List Char) : Nat :=
  ds.foldl (fun n c => 10 * n + (c.toNat - 48)) 0

/-- Splits a character list into its longest leading run of decimal digits
and the rest. -/
def takeDigits : List Char → List Char × List Char
  | [] => ([], [])
  | c :: cs =>
    if c.isDigit then
      let p := takeDigits cs
      (c :: p.1, p.2)
    else ([], c :: cs)

/-- Exact rational value of a signed decimal literal with integer digits,
fraction digits, an exponent sign and exponent digits: the scaled integer
mantissa over the power of ten given by the fraction length and the
exponent. -/
def decimalValue (neg : Bool) (intDs fracDs : List Char) (eneg : Bool) (eds : List Char) : ℚ :=
  let base : Int := (natOfDigits intDs * 10 ^ fracDs.length + natOfDigits fracDs : Nat)
  let sbase : Int := if neg then -base else base
  let e : Nat := natOfDigits eds
  if eneg then mkRat sbase (10 ^ (fracDs.length + e))
  else mkRat (sbase * (10 ^ e : Nat)) (10 ^ fracDs.length)

/-- Model of the ECMAScript parseFloat builtin on a character list with
leading whitespace already removed: an optional sign, then either an
Infinity literal or the longest prefix forming a decimal literal
(digits, an optional fraction, an optional well-formed exponent); trailing
garbage is ignored; NaN when no digit is found. -/
def parseFloatCore (cs : List Char) : JsNum :=
  let signSplit : Bool × List Char :=
    match cs with
    | '-' :: r => (true, r)
    | '+' :: r => (false, r)
    | r => (false, r)
  let neg := signSplit.1
  let cs1 := signSplit.2
  if cs1.take 8 = "Infinity".data then .inf neg
  else
    let ip := takeDigits cs1
    let intDs := ip.1
    let fp : List Char × List Char :=
      match ip.2 with
      | '.' :: r => takeDigits r
      | r => ([], r)
    let fracDs := fp.1
    if intDs.isEmpty && fracDs.isEmpty then .nan
    else
      let ep : Bool × List Char :=
        match fp.2 with
        | 'e' :: '-' :: r => (true, (takeDigits r).1)
        | 'e' :: '+' :: r => (false, (takeDigits r).1)
        | 'e' :: r => (false, (takeDigits r).1)
        | 'E' :: '-' :: r => (true, (takeDigits r).1)
        | 'E' :: '+' :: r => (false, (takeDigits r).1)
        | 'E' :: r => (false, (takeDigits r).1)
        | _ => (false, [])
      .num (decimalValue neg intDs fracDs ep.1 ep.2)

/-- Model of the ECMAScript parseFloat builtin on a string: leading
whitespace is skipped, then parseFloatCore applies. -/
def parseFloatModel (s : String) : JsNum :=
  parseFloatCore (s.data.dropWhile fun c => c.isWhitespace)

/-- Model of the JavaScript String.prototype.trim method applied before
the numeric fallback parse: leading and trailing whitespace characters
are removed. -/
def jsTrim (s : String) : String :=
  ⟨((s.data.dropWhile Char.isWhitespace).reverse.dropWhile Char.isWhitespace).reverse⟩

/-- JSON insignificant whitespace (RFC 8259): space, tab, line feed,
carriage return. -/
def jsonWs (c : Char) : Bool :=
  c = ' ' || c = '\t' || c = '\n' || c = '\r'

/-- Decides whether a string is a JSON document consisting of a single
number literal (RFC 8259 number grammar with surrounding insignificant
whitespace) and returns its exact value. Returns none for every other
string. -/
def jsonNumberLit (s : String) : Option ℚ :=
  let cs0 := s.data.dropWhile fun c => jsonWs c
  let signSplit : Bool × List Char :=
    match cs0 with
    | '-' :: r => (true, r)
    | r => (false, r)
  let neg := signSplit.1
  let intPart : Option (List Char × List Char) :=
    match signSplit.2 with
    | '0' :: r => some (['0'], r)
    | c :: r => if c.isDigit then some (takeDigits (c :: r)) else none
    | [] => none
  match intPart with
  | none => none
  | some (intDs, cs2) =>
    let fracPart : Option (List Char × List Char) :=
      match cs2 with
      | '.' :: r =>
        let p := takeDigits r
        if p.1.isEmpty then none else some p
      | r => some ([], r)
    match fracPart with
    | none => none
    | some (fracDs, cs3) =>
      let expPart : Option (Bool × List Char × List Char) :=
        match cs3 with
        | 'e' :: '-' :: r => let p := takeDigits r; if p.1.isEmpty then none else some (true, p)
        | 'e' :: '+' :: r => let p := takeDigits r; if p.1.isEmpty then none else some (false, p)
        | 'e' :: r => let p := takeDigits r; if p.1.isEmpty then none else some (false, p)
        | 'E' :: '-' :: r => let p := takeDigits r; if p.1.isEmpty then none else some (true, p)
        | 'E' :: '+' :: r => let p := takeDigits r; if p.1.isEmpty then none else some (false, p)
        | 'E' :: r => let p := takeDigits r; if p.1.isEmpty then none else some (false, p)
        | r => some (false, [], r)
      match expPart with
      | none => none
      | some (eneg, eds, cs4) =>
        if cs4.dropWhile (fun c => jsonWs c) = [] then
          some (decimalValue neg intDs fracDs eneg eds)
        else none

/-- JavaScript value model for the result of JSON.parse: the primitive
values are kept exactly; objects and arrays are collapsed into one opaque
constructor because the service returns the parsed value without
inspecting it. -/
inductive JsValue where
  | num (n : JsNum)
  | str (s : String)
  | boolVal (b : Bool)
  | nullVal
  | objOrArr
deriving DecidableEq, Repr

/-- Model of the ECMAScript JSON.parse builtin restricted to documents
that are a single number literal; it is exact on such documents (they
parse to that number) and conservatively returns none on every other
document. It is used only at number-literal and at non-JSON inputs, where
it agrees with the builtin. -/
def jsonParseStd (s : String) : Option JsValue :=
  (jsonNumberLit s).map fun q => JsValue.num (.num q)

/-- ScoringResult shape from src/frontend/src/types/iexec.ts; the two
optional fields are modelled as options (absent = none). -/
structure ScoringResult where
  scoring_logic : String
  result : JsNum
  status : String
  data_source : String
  input_A : Option JsNum
  error_message : Option String
deriving DecidableEq, Repr

/-- Runtime value returned by parseTaskResult: on JSON.parse success the
source returns the parsed value itself under an unchecked type cast
(rawJson); on failure it builds the fallback object literal (outcome). -/
inductive ParsedResult where
  | rawJson (v : JsValue)
  | outcome (r : ScoringResult)
deriving DecidableEq, Repr

/-- Embedding of parseTaskResult (iexecService.ts lines 541-558). The
first argument models the JSON.parse builtin (none = it throws). On parse
success the parsed value is returned as-is (cast, not validated); on
failure parseFloat runs on the trimmed payload and the fixed fallback
object is synthesized, with 0 substituted when the numeric parse is NaN. -/
def parseTaskResult (jp : String → Option JsValue) (resultContent : String) : ParsedResult :=
  match jp resultContent with
  | some parsed => .rawJson parsed
  | none =>
    let numericResult := parseFloatModel (jsTrim resultContent)
    .outcome
      { scoring_logic := "A * 2"
        result := match numericResult with | .nan => .num 0 | v => v
        status := "success"
        data_source := "protected_data"
        input_A := none
        error_message := none }

/-! Task status query and polling loop. -/

/-- Boundary mapping of the platform status string to the local 4-state
model: the switch statement in getTaskStatus (iexecService.ts lines
190-214). ACTIVE and REVEALING map to running, COMPLETED to completed,
FAILED and TIMEOUT to failed, and the default branch leaves the initial
value pending. -/
def mapStatus (statusName : String) : LocalStatus :=
  if statusName = "ACTIVE" || statusName = "REVEALING" then .running
  else if statusName = "COMPLETED" then .completed
  else if statusName = "FAILED" || statusName = "TIMEOUT" then .failed
  else .pending

/-- Remote task fields getTaskStatus reads: the platform status string,
the deal id, and the result location when task.results is an object
carrying one (resultsLocation none models task.results absent, not an
object, or without a location). -/
structure RemoteTask where
  statusName : String
  dealid : String
  resultsLocation : Option String
deriving DecidableEq, Repr

/-- Fields of the TEETaskResult record returned by getTaskStatus that the
claims are about; the createdAt and completedAt timestamps are Date
arithmetic on deal and task fields and are not modelled. -/
structure TaskStatusResult where
  taskId : String
  dealId : String
  status : LocalStatus
  result : Option ParsedResult
deriving DecidableEq, Repr

/-- Embedding of getTaskStatus (iexecService.ts lines 176-228). The
arguments model the external calls: jp is the JSON.parse builtin used by
parseTaskResult, taskShow models task.show, dealShow models deal.show
(fetched for its timestamps; only its success or failure matters here),
fetchResult models fetchTaskResult on the result location. A throw of
either show call is caught by the method and rethrown with the
failure-to-get-status prefix. Only in the COMPLETED branch, and only when
a result location is present, is the payload fetched and parsed; a fetch
failure is caught and logged, leaving the result field undefined. -/
def getTaskStatus (jp : String → Option JsValue) (taskId : String)
    (taskShow : Except String RemoteTask) (dealShow : Except String Unit)
    (fetchResult : Except String String) : Except String TaskStatusResult :=
  match taskShow with
  | .error e => .error ("Failed to get task status: " ++ e)
  | .ok task =>
    match dealShow with
    | .error e => .error ("Failed to get task status: " ++ e)
    | .ok _ =>
      let status := mapStatus task.statusName
      let result : Option ParsedResult :=
        if task.statusName = "COMPLETED" then
          match task.resultsLocation with
          | some _ =>
            match fetchResult with
            | .ok resultContent => some (parseTaskResult jp resultContent)
            | .error _ => none
          | none => none
        else none
      .ok { taskId := taskId, dealId := task.dealid, status := status, result := result }

/-- Terminal-state test used by the polling loop:
task.status === completed || task.status === failed. -/
def isTerminal : LocalStatus → Bool
  | .completed => true
  | .failed => true
  | _ => false

/-- Timeout message thrown by pollTaskUntilComplete after the loop
exhausts its budget. -/
def pollTimeoutMsg : String :=
  "Task polling timeout - task may still be running"

/-- The maxPolls constant of pollTaskUntilComplete. -/
def maxPolls : Nat := 180

/-- Loop body of pollTaskUntilComplete (iexecService.ts lines 269-302),
embedded with an explicit fuel argument equal to m - i so the for loop
over i in 0..m is structural. polls i models the outcome of the i-th
getTaskStatus call (error = it threw). A terminal status returns the
task; a throw on iteration i = m - 1 is rethrown, on earlier iterations
it is swallowed and the loop continues; falling off the loop throws the
timeout message. The 5-second initial grace delay and the 3-second
inter-poll sleeps are timing behavior with no effect on the returned
value and are not modelled. -/
def pollGo (polls : Nat → Except String TaskStatusResult) (m : Nat) :
    Nat → Nat → Except String TaskStatusResult
  | _, 0 => .error pollTimeoutMsg
  | i, fuel + 1 =>
    match polls i with
    | .ok task =>
      if isTerminal task.status then .ok task
      else pollGo polls m (i + 1) fuel
    | .error e =>
      if i = m - 1 then .error e
      else pollGo polls m (i + 1) fuel

/-- Embedding of pollTaskUntilComplete: the bounded loop with
maxPolls = 180 iterations starting at i = 0. -/
def pollTaskUntilComplete (polls : Nat → Except String TaskStatusResult) :
    Except String TaskStatusResult :=
  pollGo polls maxPolls 0 maxPolls

/-! Task submission: triggerTEETask. -/

/-- Parameters of triggerTEETask (TriggerTEETaskParams): the numeric input
value and the optional protected-data request. -/
structure TriggerTEETaskParams where
  inputValue : Option Int
  useProtectedData : Bool
  protectedDataAddress : Option String
deriving DecidableEq, Repr

/-- Fields of the TEETaskResult record returned by triggerTEETask that
the claims are about (createdAt is a wall-clock timestamp and is not
modelled). The status field is always pending on creation. -/
structure TriggerResult where
  taskId : String
  dealId : String
  status : LocalStatus
deriving DecidableEq, Repr

/-- External-call outcomes consumed by one triggerTEETask invocation.
The four orderbook fields model the SDK orderbook fetches (none = the
fetch threw). signResult models createRequestorder plus signRequestorder.
matchOrders is indexed by attempt number, modelling the outcome each
successive matchOrders invocation would produce; the source invokes it
once, so only index 0 is ever consulted. computeTaskId models
deal.computeTaskId(dealId, 0) and dealTasks models deal.show followed by
reading the deal task map (none = deal.tasks absent or not an object;
some l = the list of its values; error = deal.show threw). -/
structure TriggerOracle where
  appBook : Option (List AppOrderEntry)
  debugBook : Option (List WorkerpoolOrderEntry)
  generalBook : Option (List WorkerpoolOrderEntry)
  datasetBook : Option (List DatasetOrderEntry)
  signResult : Except String Unit
  matchOrders : Nat → Except String String
  computeTaskId : Except String String
  dealTasks : Except String (Option (List String))

/-- Embedding of the task-id resolution inside triggerTEETask
(iexecService.ts lines 138-162): computeTaskId is attempted first and its
value is used whenever it does not throw (no emptiness check); only on a
throw is the deal task set consulted, taking its first entry; an empty or
unavailable task set raises the failed-to-get-task-id error (the inner
throws are caught and rewrapped with the deal id). -/
def resolveTaskId (computeTaskId : Except String String)
    (dealTasks : Except String (Option (List String))) (dealId : String) :
    Except String String :=
  match computeTaskId with
  | .ok taskId => .ok taskId
  | .error _ =>
    match dealTasks with
    | .ok (some (taskId :: _)) => .ok taskId
    | .ok (some []) => .error ("Failed to get task ID for deal " ++ dealId)
    | .ok none => .error ("Failed to get task ID for deal " ++ dealId)
    | .error _ => .error ("Failed to get task ID for deal " ++ dealId)

/-- The app address constant DEPLOYED_ADDRESSES.TEE_APP used by
triggerTEETask. -/
def teeAppAddress : String := "0x5eC82059CbF38C005B73e70220a5192B19E7A12c"

/-- Body of the try block of triggerTEETask (iexecService.ts lines 65-174)
for the TEE service. The request order carries category 0, volume 1 and
tag 0x3 (TEE + SCONE bits). The protected-data branch attempts a dataset
order and on failure falls back to plain-args test mode (the failure is
caught and only warned about); the resulting dataset parameter and args
do not affect the fields modelled here, but the branch is kept because the
source evaluates it before signing. Then the request is created and
signed, the app and workerpool orders are resolved (either failure
propagates), matchOrders is invoked once, and the task id is resolved from
the resulting deal id. -/
def triggerTEETaskCore (o : TriggerOracle) (p : TriggerTEETaskParams) :
    Except String TriggerResult :=
  let datasetParam : Option String :=
    if p.useProtectedData then
      match p.protectedDataAddress with
      | some addr =>
        match getDatasetOrder addr o.datasetBook with
        | .ok _ => some addr
        | .error _ => none
      | none => none
    else none
  match o.signResult with
  | .error e => .error e
  | .ok _ =>
    match getAppOrder teeAppAddress o.appBook with
    | .error e => .error e
    | .ok _appOrder =>
      match getWorkerpoolOrder o.debugBook o.generalBook with
      | .error e => .error e
      | .ok _workerpoolOrder =>
        let _datasetOrderIncluded : Option DatasetOrder :=
          match datasetParam with
          | some addr =>
            match getDatasetOrder addr o.datasetBook with
            | .ok d => some d
            | .error _ => none
          | none => none
        match o.matchOrders 0 with
        | .error e => .error e
        | .ok dealId =>
          match resolveTaskId o.computeTaskId o.dealTasks dealId with
          | .error e => .error e
          | .ok taskId => .ok { taskId := taskId, dealId := dealId, status := .pending }

/-- Embedding of triggerTEETask: the outer catch wraps every failure of
the body into the failed-to-trigger message before rethrowing. -/
def triggerTEETask (o : TriggerOracle) (p : TriggerTEETaskParams) :
    Except String TriggerResult :=
  match triggerTEETaskCore o p with
  | .ok r => .ok r
  | .error m => .error ("Failed to trigger TEE task: " ++ m)

/-! Helper lemmas about the selection functions. -/

/-- A stable-minimum pick always comes from the list. -/
theorem pickCheapestBy_mem {α : Type} (price : α → Int) :
    ∀ (l : List α) (e : α), pickCheapestBy price l = some e → e ∈ l := by
  intro l
  induction l with
  | nil => intro e h; cases h
  | cons a rest ih =>
    intro e h
    simp only [pickCheapestBy] at h
    cases hr : pickCheapestBy price rest with
    | none => rw [hr] at h; dsimp only at h; cases h; exact List.mem_cons_self a rest
    | some m =>
      rw [hr] at h
      dsimp only at h
      by_cases hp : price a ≤ price m
      · rw [if_pos hp] at h; cases h; exact List.mem_cons_self a rest
      · rw [if_neg hp] at h; cases h; exact List.mem_cons_of_mem a (ih _ hr)

/-- A stable-minimum pick is none exactly on the empty list. -/
theorem pickCheapestBy_eq_none {α : Type} (price : α → Int) :
    ∀ l : List α, pickCheapestBy price l = none ↔ l = [] := by
  intro l
  cases l with
  | nil => simp [pickCheapestBy]
  | cons a rest =>
    simp only [pickCheapestBy]
    constructor
    · intro h
      cases hr : pickCheapestBy price rest with
      | none => rw [hr] at h; dsimp only at h; cases h
      | some m =>
        rw [hr] at h
        dsimp only at h
        by_cases hp : price a ≤ price m
        · rw [if_pos hp] at h; cases h
        · rw [if_neg hp] at h; cases h
    · intro h; cases h

/-- An entry passing the workerpool filter has positive remaining volume
and a tag intersecting the TEE mask. -/
theorem teeEligible_iff (e : WorkerpoolOrderEntry) :
    teeEligible e = true ↔ 0 < e.remaining ∧ e.order.tag &&& 3 ≠ 0 := by
  simp [teeEligible, hasTeeTag]

/-- Every workerpool order returned by getWorkerpoolOrder is the order of
an entry of one of the two fetched orderbooks that passes the TEE
eligibility filter. -/
theorem getWorkerpoolOrder_ok_inv (db gb : Option (List WorkerpoolOrderEntry))
    (w : WorkerpoolOrder) (h : getWorkerpoolOrder db gb = .ok w) :
    ∃ l e, (db = some l ∨ gb = some l) ∧ e ∈ l ∧ e.order = w ∧ teeEligible e = true := by
  unfold getWorkerpoolOrder at h
  cases db with
  | some orders =>
    simp only at h
    by_cases hl : orders.length > 0
    · rw [if_pos hl] at h
      cases hf : orders.filter teeEligible with
      | cons e tail =>
        rw [hf] at h
        cases h
        have he : e ∈ orders.filter teeEligible := by rw [hf]; exact List.mem_cons_self e tail
        exact ⟨orders, e, Or.inl rfl, List.mem_of_mem_filter he, rfl, List.of_mem_filter he⟩
      | nil =>
        rw [hf] at h
        cases gb with
        | none => cases h
        | some gorders =>
          simp only at h
          by_cases hg : gorders.length > 0
          · rw [if_pos hg] at h
            cases hp : pickCheapestBy (fun e : WorkerpoolOrderEntry => e.order.workerpoolprice) (gorders.filter teeEligible) with
            | some e =>
              rw [hp] at h
              cases h
              have he := pickCheapestBy_mem _ _ _ hp
              exact ⟨gorders, e, Or.inr rfl, List.mem_of_mem_filter he, rfl, List.of_mem_filter he⟩
            | none => rw [hp] at h; cases h
          · rw [if_neg hg] at h; cases h
    · rw [if_neg hl] at h
      cases gb with
      | none => cases h
      | some gorders =>
        simp only at h
        by_cases hg : gorders.length > 0
        · rw [if_pos hg] at h
          cases hp : pickCheapestBy (fun e : WorkerpoolOrderEntry => e.order.workerpoolprice) (gorders.filter teeEligible) with
          | some e =>
            rw [hp] at h
            cases h
            have he := pickCheapestBy_mem _ _ _ hp
            exact ⟨gorders, e, Or.inr rfl, List.mem_of_mem_filter he, rfl, List.of_mem_filter he⟩
          | none => rw [hp] at h; cases h
        · rw [if_neg hg] at h; cases h
  | none =>
    simp only at h
    cases gb with
    | none => cases h
    | some gorders =>
      simp only at h
      by_cases hg : gorders.length > 0
      · rw [if_pos hg] at h
        cases hp : pickCheapestBy (fun e : WorkerpoolOrderEntry => e.order.workerpoolprice) (gorders.filter teeEligible) with
        | some e =>
          rw [hp] at h
          cases h
          have he := pickCheapestBy_mem _ _ _ hp
          exact ⟨gorders, e, Or.inr rfl, List.mem_of_mem_filter he, rfl, List.of_mem_filter he⟩
        | none => rw [hp] at h; cases h
      · rw [if_neg hg] at h; cases h

/-- When no entry of either fetched workerpool orderbook passes the TEE
eligibility filter, getWorkerpoolOrder throws the no-TEE-pools error. -/
theorem getWorkerpoolOrder_noEligible (db gb : Option (List WorkerpoolOrderEntry))
    (hd : ∀ l, db = some l → l.filter teeEligible = [])
    (hg : ∀ l, gb = some l → l.filter teeEligible = []) :
    getWorkerpoolOrder db gb = .error noTeePoolsMsg := by
  unfold getWorkerpoolOrder
  have hgen : (match gb with
      | none => (.error noTeePoolsMsg : Except String WorkerpoolOrder)
      | some orders =>
        if orders.length > 0 then
          match pickCheapestBy (fun e : WorkerpoolOrderEntry => e.order.workerpoolprice) (orders.filter teeEligible) with
          | some e => .ok e.order
          | none => .error noTeePoolsMsg
        else .error noTeePoolsMsg) = .error noTeePoolsMsg := by
    cases gb with
    | none => rfl
    | some gorders =>
      simp only
      rw [hg gorders rfl]
      by_cases h : gorders.length > 0
      · rw [if_pos h]; rfl
      · rw [if_neg h]
  cases db with
  | none => simpa using hgen
  | some orders =>
    simp only
    rw [hd orders rfl]
    by_cases h : orders.length > 0
    · rw [if_pos h]
      simpa using hgen
    · rw [if_neg h]
      simpa using hgen

/-- Whenever getAppOrder succeeds through the filtered branch, the
returned order comes from an entry of the book with positive remaining
volume; the branch is taken exactly when such an entry exists. -/
theorem getAppOrder_pos (appAddress : String) (l : List AppOrderEntry) (a : AppOrder)
    (h : getAppOrder appAddress (some l) = .ok a)
    (hex : ∃ e ∈ l, 0 < e.remaining) :
    ∃ e ∈ l, e.order = a ∧ 0 < e.remaining := by
  cases l with
  | nil => cases h
  | cons first rest =>
    unfold getAppOrder at h
    dsimp only at h
    cases hp : pickCheapestBy (fun e : AppOrderEntry => e.order.appprice)
        ((first :: rest).filter (fun e => decide (0 < e.remaining))) with
    | some e =>
      rw [hp] at h
      cases h
      have he := pickCheapestBy_mem _ _ _ hp
      refine ⟨e, List.mem_of_mem_filter he, rfl, ?_⟩
      have := List.of_mem_filter he
      simpa using this
    | none =>
      exfalso
      have hnil := (pickCheapestBy_eq_none (fun e : AppOrderEntry => e.order.appprice) _).mp hp
      obtain ⟨e, hmem, hrem⟩ := hex
      have : e ∈ (List.nil : List AppOrderEntry) := by
        rw [← hnil]
        exact List.mem_filter.mpr ⟨hmem, by simpa using hrem⟩
      cases this

/-- When every entry of a nonempty app orderbook has nonpositive remaining
volume, getAppOrder falls back to the first entry of the book. -/
theorem getAppOrder_fallback (appAddress : String) (first : AppOrderEntry)
    (rest : List AppOrderEntry)
    (hall : ∀ e ∈ first :: rest, ¬ 0 < e.remaining) :
    getAppOrder appAddress (some (first :: rest)) = .ok first.order := by
  unfold getAppOrder
  dsimp only
  have hnil : (first :: rest).filter (fun e => decide (0 < e.remaining)) = [] := by
    rw [List.filter_eq_nil_iff]
    intro e he
    simpa using hall e he
  rw [hnil]
  rfl

/-! Helper lemmas evaluating triggerTEETask along its branches. -/

/-- A create or sign failure propagates out of the try-block body. -/
theorem triggerCore_sign_err (o : TriggerOracle) (p : TriggerTEETaskParams) (e : String)
    (hs : o.signResult = .error e) : triggerTEETaskCore o p = .error e := by
  unfold triggerTEETaskCore
  rw [hs]

/-- An app-order failure propagates out of the try-block body. -/
theorem triggerCore_app_err (o : TriggerOracle) (p : TriggerTEETaskParams) (e : String)
    (hs : o.signResult = .ok ())
    (ha : getAppOrder teeAppAddress o.appBook = .error e) :
    triggerTEETaskCore o p = .error e := by
  unfold triggerTEETaskCore
  rw [hs, ha]

/-- A workerpool-order failure propagates out of the try-block body. -/
theorem triggerCore_pool_err (o : TriggerOracle) (p : TriggerTEETaskParams)
    (a : AppOrder) (e : String)
    (hs : o.signResult = .ok ())
    (ha : getAppOrder teeAppAddress o.appBook = .ok a)
    (hw : getWorkerpoolOrder o.debugBook o.generalBook = .error e) :
    triggerTEETaskCore o p = .error e := by
  unfold triggerTEETaskCore
  rw [hs, ha, hw]

/-- With signing and both required orders resolved, the try-block body
reduces to the single matchOrders attempt followed by task-id
resolution. -/
theorem triggerCore_eval (o : TriggerOracle) (p : TriggerTEETaskParams)
    (a : AppOrder) (w : WorkerpoolOrder)
    (hs : o.signResult = .ok ())
    (ha : getAppOrder teeAppAddress o.appBook = .ok a)
    (hw : getWorkerpoolOrder o.debugBook o.generalBook = .ok w) :
    triggerTEETaskCore o p =
      (match o.matchOrders 0 with
       | .error e => .error e
       | .ok dealId =>
         match resolveTaskId o.computeTaskId o.dealTasks dealId with
         | .error e => .error e
         | .ok taskId => .ok { taskId := taskId, dealId := dealId, status := .pending }) := by
  unfold triggerTEETaskCore
  rw [hs, ha, hw]

/-- The outer catch of triggerTEETask wraps a body failure into the
failed-to-trigger message. -/
theorem trigger_wrap_err (o : TriggerOracle) (p : TriggerTEETaskParams) (m : String)
    (h : triggerTEETaskCore o p = .error m) :
    triggerTEETask o p = .error ("Failed to trigger TEE task: " ++ m) := by
  unfold triggerTEETask
  rw [h]

/-- A successful body value passes through the outer catch unchanged. -/
theorem trigger_wrap_ok (o : TriggerOracle) (p : TriggerTEETaskParams) (r : TriggerResult)
    (h : triggerTEETaskCore o p = .ok r) : triggerTEETask o p = .ok r := by
  unfold triggerTEETask
  rw [h]

/-- triggerTEETask never returns a task handle when the workerpool-order
resolution fails. -/
theorem trigger_ne_ok_of_pool_error (o : TriggerOracle) (p : TriggerTEETaskParams) (e : String)
    (hw : getWorkerpoolOrder o.debugBook o.generalBook = .error e) :
    ∀ r, triggerTEETask o p ≠ .ok r := by
  intro r hok
  cases hs : o.signResult with
  | error e1 =>
    rw [trigger_wrap_err o p e1 (triggerCore_sign_err o p e1 hs)] at hok
    cases hok
  | ok u =>
    cases u
    cases ha : getAppOrder teeAppAddress o.appBook with
    | error e1 =>
      rw [trigger_wrap_err o p e1 (triggerCore_app_err o p e1 hs ha)] at hok
      cases hok
    | ok a =>
      rw [trigger_wrap_err o p e (triggerCore_pool_err o p a e hs ha hw)] at hok
      cases hok

/-! Helper lemmas about the polling loop. -/

/-- The loop body only consults poll outcomes at the iteration indices it
actually reaches: two poll sequences agreeing on the window determine the
same result. -/
theorem pollGo_congr (m : Nat) :
    ∀ (fuel i : Nat) (polls polls' : Nat → Except String TaskStatusResult),
      (∀ j, i ≤ j → j < i + fuel → polls j = polls' j) →
      pollGo polls m i fuel = pollGo polls' m i fuel := by
  intro fuel
  induction fuel with
  | zero => intro i polls polls' _; rfl
  | succ n ih =>
    intro i polls polls' h
    have hi : polls i = polls' i := h i le_rfl (by omega)
    simp only [pollGo, hi]
    cases polls' i with
    | ok t =>
      by_cases ht : isTerminal t.status = true
      · simp [ht]
      · simp only [Bool.not_eq_true] at ht
        simp only [ht, Bool.false_eq_true, if_false]
        exact ih (i + 1) polls polls' (fun j h1 h2 => h j (by omega) (by omega))
    | error e =>
      by_cases hm : i = m - 1
      · simp [hm]
      · simp only [hm, if_false]
        exact ih (i + 1) polls polls' (fun j h1 h2 => h j (by omega) (by omega))

/-- When no reached poll returns a terminal task, the loop runs to the
last iteration: a throw there propagates, and otherwise the budget is
exhausted with the timeout error. -/
theorem pollGo_noTerminal (polls : Nat → Except String TaskStatusResult) (m : Nat) :
    ∀ (fuel i : Nat), 0 < fuel → i + fuel = m →
      (∀ j, i ≤ j → j < m → ∀ t, polls j = .ok t → isTerminal t.status = false) →
      pollGo polls m i fuel =
        (match polls (m - 1) with
         | .error e => .error e
         | .ok _ => .error pollTimeoutMsg) := by
  intro fuel
  induction fuel with
  | zero => intro i h0; omega
  | succ n ih =>
    intro i _ hm h
    simp only [pollGo]
    cases hp : polls i with
    | ok t =>
      have ht : isTerminal t.status = false := h i le_rfl (by omega) t hp
      simp only [ht, Bool.false_eq_true, if_false]
      cases Nat.eq_zero_or_pos n with
      | inl hz =>
        subst hz
        have hi : i = m - 1 := by omega
        simp only [pollGo]
        rw [← hi, hp]
      | inr hpos =>
        exact ih (i + 1) hpos (by omega) (fun j h1 h2 => h j (by omega) h2)
    | error e =>
      dsimp only
      by_cases hlast : i = m - 1
      · rw [if_pos hlast, ← hlast, hp]
      · simp only [hlast, if_false]
        have hpos : 0 < n := by omega
        exact ih (i + 1) hpos (by omega) (fun j h1 h2 => h j (by omega) h2)

/-! Claim theorems. -/

/-- C2 (amended): the workerpool offer filter selects an offer iff its
remaining volume is positive and its capability tag intersects the
two-bit mask 0x3 — at least one of the TEE and SCONE bits, not the subset
check of the original claim — and every order getWorkerpoolOrder returns
has at least one of the two bits set. -/
theorem claim2_workerpool_filter_anybit :
    (∀ e : WorkerpoolOrderEntry,
        teeEligible e = true ↔ 0 < e.remaining ∧ e.order.tag &&& 3 ≠ 0)
    ∧ (∀ db gb w, getWorkerpoolOrder db gb = .ok w → w.tag &&& 3 ≠ 0) := by
  refine ⟨teeEligible_iff, ?_⟩
  intro db gb w h
  obtain ⟨l, e, _, _, heq, helig⟩ := getWorkerpoolOrder_ok_inv db gb w h
  rw [← heq]
  exact ((teeEligible_iff e).mp helig).2

/-- C2 counterexample: with requirement bits 0x3 (TEE + SCONE), an offer
whose tag is 0x1 only — missing the required 0x2 bit — is nevertheless
selected by the code, refuting the subset check (0x1 and 0x3 = 0x1, which
differs from 0x3). -/
theorem claim2_cex :
    getWorkerpoolOrder none (some [⟨⟨"0xpool", 0, 1, 5⟩, 1⟩]) = .ok ⟨"0xpool", 0, 1, 5⟩
    ∧ ((1 : Nat) &&& 3) ≠ 3 := ⟨rfl, by decide⟩

/-- C2 witness: a concrete eligible entry with both bits set, and the
selection soundness applied to a singleton orderbook. -/
theorem claim2_wit :
    teeEligible ⟨⟨"0xwit", 0, 3, 5⟩, 2⟩ = true
    ∧ ((⟨"0xwit", 0, 3, 5⟩ : WorkerpoolOrder).tag &&& 3 ≠ 0) :=
  ⟨(claim2_workerpool_filter_anybit.1 ⟨⟨"0xwit", 0, 3, 5⟩, 2⟩).mpr ⟨by decide, by decide⟩,
   claim2_workerpool_filter_anybit.2 none (some [⟨⟨"0xwit", 0, 3, 5⟩, 2⟩]) ⟨"0xwit", 0, 3, 5⟩ rfl⟩

/-- C3 (amended): workerpool selection only returns orders of entries
with positive remaining volume; app selection returns an order of a
positive-remaining entry whenever one exists, but when every app entry
has nonpositive remaining volume it returns the first entry of the book
anyway rather than reporting an error. -/
theorem claim3_volume_exclusion :
    (∀ db gb w, getWorkerpoolOrder db gb = .ok w →
        ∃ l e, (db = some l ∨ gb = some l) ∧ e ∈ l ∧ e.order = w ∧ 0 < e.remaining)
    ∧ (∀ addr l a, getAppOrder addr (some l) = .ok a →
        (∃ e ∈ l, 0 < e.remaining) → ∃ e ∈ l, e.order = a ∧ 0 < e.remaining)
    ∧ (∀ addr (first : AppOrderEntry) rest,
        (∀ e ∈ first :: rest, ¬ 0 < e.remaining) →
        getAppOrder addr (some (first :: rest)) = .ok first.order) := by
  refine ⟨?_, getAppOrder_pos, getAppOrder_fallback⟩
  intro db gb w h
  obtain ⟨l, e, hb, hm, heq, helig⟩ := getWorkerpoolOrder_ok_inv db gb w h
  exact ⟨l, e, hb, hm, heq, ((teeEligible_iff e).mp helig).1⟩

/-- C3 counterexample: an app orderbook whose single offer has remaining
volume 0 — the code returns that offer instead of reporting an error,
refuting the volume-exclusion claim for app selection. -/
theorem claim3_cex :
    getAppOrder "0xapp" (some [⟨⟨"0xapp", 7, 10, 0⟩, 0⟩]) = .ok ⟨"0xapp", 7, 10, 0⟩
    ∧ (⟨⟨"0xapp", 7, 10, 0⟩, 0⟩ : AppOrderEntry).remaining = 0 := ⟨rfl, rfl⟩

/-- C3 witness: app selection on a two-entry book with one exhausted and
one available offer returns an offer of positive remaining volume. -/
theorem claim3_wit :
    ∃ e ∈ [(⟨⟨"0xa", 5, 1, 3⟩, 0⟩ : AppOrderEntry), ⟨⟨"0xb", 9, 1, 3⟩, 2⟩],
      e.order = ⟨"0xb", 9, 1, 3⟩ ∧ 0 < e.remaining :=
  claim3_volume_exclusion.2.1 "0xapp"
    [⟨⟨"0xa", 5, 1, 3⟩, 0⟩, ⟨⟨"0xb", 9, 1, 3⟩, 2⟩] ⟨"0xb", 9, 1, 3⟩ rfl
    ⟨⟨⟨"0xb", 9, 1, 3⟩, 2⟩, by decide, by decide⟩

/-- C9 (amended): the boundary mapping sends every status string outside
the known set (ACTIVE, REVEALING, COMPLETED, FAILED, TIMEOUT) to the
local pending state; the local 4-state model has no Unknown member. -/
theorem claim9_unknown_maps_to_pending :
    ∀ s, s ≠ "ACTIVE" → s ≠ "REVEALING" → s ≠ "COMPLETED" → s ≠ "FAILED" → s ≠ "TIMEOUT" →
      mapStatus s = .pending := by
  intro s h1 h2 h3 h4 h5
  unfold mapStatus
  simp [h1, h2, h3, h4, h5]

/-- C9 counterexample: an unrecognized remote status string is mapped
silently to the pending state, not to a distinguishable Unknown state,
refuting the claim as stated. -/
theorem claim9_cex : mapStatus "UNRECOGNIZED_STATE" = .pending := rfl

/-- C9 witness: the amended mapping applied to a concrete unknown
string. -/
theorem claim9_wit : mapStatus "INITIALIZING" = .pending :=
  claim9_unknown_maps_to_pending "INITIALIZING"
    (by decide) (by decide) (by decide) (by decide) (by decide)

/-- C10 (confirmed): dataset-offer selection throws exactly when the
fetch fails or the book is empty; on a nonempty book it returns the first
zero-price order when one exists and otherwise the first order of the
book, consulting neither remaining volume nor price ranking. -/
theorem claim10_dataset_selection :
    (∀ addr, getDatasetOrder addr none = .error (noDatasetOrdersMsg addr))
    ∧ (∀ addr, getDatasetOrder addr (some []) = .error (noDatasetOrdersMsg addr))
    ∧ (∀ addr (first : DatasetOrderEntry) rest,
        (∃ e ∈ first :: rest, e.order.datasetprice = 0) →
        ∃ e ∈ first :: rest,
          getDatasetOrder addr (some (first :: rest)) = .ok e.order
          ∧ e.order.datasetprice = 0)
    ∧ (∀ addr (first : DatasetOrderEntry) rest,
        (∀ e ∈ first :: rest, e.order.datasetprice ≠ 0) →
        getDatasetOrder addr (some (first :: rest)) = .ok first.order) := by
  refine ⟨fun addr => rfl, fun addr => rfl, ?_, ?_⟩
  · intro addr first rest hex
    cases hf : (first :: rest).find? (fun e => e.order.datasetprice == 0) with
    | none =>
      exfalso
      obtain ⟨e, hmem, hz⟩ := hex
      have := List.find?_eq_none.mp hf e hmem
      simp [hz] at this
    | some e =>
      refine ⟨e, List.mem_of_find?_eq_some hf, ?_, ?_⟩
      · unfold getDatasetOrder
        dsimp only
        rw [hf]
      · have := List.find?_some hf
        simpa using this
  · intro addr first rest hall
    unfold getDatasetOrder
    dsimp only
    have hf : (first :: rest).find? (fun e => e.order.datasetprice == 0) = none := by
      rw [List.find?_eq_none]
      intro e he
      simpa using hall e he
    rw [hf]

/-- C10 witness: a two-entry dataset book whose second order is free —
selection returns a zero-price order. -/
theorem claim10_wit :
    ∃ e ∈ [(⟨⟨"0xd1", 3⟩, 1⟩ : DatasetOrderEntry), ⟨⟨"0xd2", 0⟩, 0⟩],
      getDatasetOrder "0xdata" (some [⟨⟨"0xd1", 3⟩, 1⟩, ⟨⟨"0xd2", 0⟩, 0⟩]) = .ok e.order
      ∧ e.order.datasetprice = 0 :=
  claim10_dataset_selection.2.2.1 "0xdata" ⟨⟨"0xd1", 3⟩, 1⟩ [⟨⟨"0xd2", 0⟩, 0⟩]
    ⟨⟨⟨"0xd2", 0⟩, 0⟩, by decide, by decide⟩

/-- C5 (amended): when the ledger reports COMPLETED but fetching the
result payload fails, getTaskStatus still returns the terminal state
completed, but the outcome is omitted (left undefined) instead of being
populated with an error-carrying outcome. -/
theorem claim5_completed_fetch_failure_omits_outcome :
    ∀ (jp : String → Option JsValue) (tid : String) (t : RemoteTask) (e : String),
      t.statusName = "COMPLETED" →
      getTaskStatus jp tid (.ok t) (.ok ()) (.error e) =
        .ok { taskId := tid, dealId := t.dealid, status := .completed, result := none } := by
  intro jp tid t e h
  obtain ⟨sn, did, rloc⟩ := t
  simp only at h
  subst h
  cases rloc <;> rfl

/-- C5 counterexample: a COMPLETED task with a result location whose
payload fetch throws — the returned record carries status completed with
result none, not an outcome whose status field is an error, refuting the
claim that the outcome is never omitted. -/
theorem claim5_cex :
    getTaskStatus jsonParseStd "0xtask" (.ok ⟨"COMPLETED", "0xdeal", some "https://ipfs.io/result"⟩)
        (.ok ()) (.error "HTTP 500: Internal Server Error") =
      .ok { taskId := "0xtask", dealId := "0xdeal", status := .completed, result := none } := rfl

/-- C5 witness: the amended behavior at a concrete COMPLETED task. -/
theorem claim5_wit :
    getTaskStatus jsonParseStd "0xt" (.ok ⟨"COMPLETED", "0xd", some "loc"⟩) (.ok ())
        (.error "network down") =
      .ok { taskId := "0xt", dealId := "0xd", status := .completed, result := none } :=
  claim5_completed_fetch_failure_omits_outcome jsonParseStd "0xt"
    ⟨"COMPLETED", "0xd", some "loc"⟩ "network down" rfl

/-- C6 (amended): the polling loop consults at most maxPolls = 180 poll
outcomes, and when no poll in the budget returns a terminal task the
result is determined by the final poll: a throw there propagates the I/O
error itself to the caller, while a non-terminal success there surfaces
the poll-timeout error. Throws on earlier polls are retried in place. -/
theorem claim6_poll_budget_and_last_error :
    (∀ polls polls' : Nat → Except String TaskStatusResult,
        (∀ i, i < maxPolls → polls i = polls' i) →
        pollTaskUntilComplete polls = pollTaskUntilComplete polls')
    ∧ (∀ polls : Nat → Except String TaskStatusResult,
        (∀ i, i < maxPolls → ∀ t, polls i = .ok t → isTerminal t.status = false) →
        pollTaskUntilComplete polls =
          (match polls (maxPolls - 1) with
           | .error e => .error e
           | .ok _ => .error pollTimeoutMsg)) := by
  constructor
  · intro polls polls' h
    exact pollGo_congr maxPolls maxPolls 0 polls polls' (fun j _ h2 => h j (by omega))
  · intro polls h
    exact pollGo_noTerminal polls maxPolls maxPolls 0 (by decide) (by omega)
      (fun j _ h2 t ht => h j h2 t ht)

set_option maxRecDepth 4000 in
/-- C6 counterexample: every poll throws the same transient I/O error —
after the budget is exhausted the loop rethrows that I/O error from its
final iteration instead of surfacing only the poll-timeout message,
refuting the claim that transient errors never propagate. -/
theorem claim6_cex :
    pollTaskUntilComplete (fun _ => .error "ECONNRESET") = .error "ECONNRESET" := rfl

/-- C6 witness: a run whose polls all succeed with a non-terminal status
exhausts the budget and surfaces exactly the poll-timeout error. -/
theorem claim6_wit :
    pollTaskUntilComplete (fun _ => .ok ⟨"0xt", "0xd", .running, none⟩) =
      .error pollTimeoutMsg := by
  have h := claim6_poll_budget_and_last_error.2 (fun _ => .ok ⟨"0xt", "0xd", .running, none⟩)
    (fun i _ t ht => by cases ht; rfl)
  simpa using h

/-- C7 (amended): for every payload on which the JSON decode fails, the
fallback outcome carries the fixed label, the numeric parse of the
trimmed payload (0 when NaN), success status, protected-data provenance,
and no raw-input field. The literal payload 84.0, however, decodes as
JSON, so it is returned as the bare number rather than via the
fallback. -/
theorem claim7_fallback_outcome :
    ∀ (jp : String → Option JsValue) (content : String),
      jp content = none →
      ∃ r, parseTaskResult jp content = .outcome r
        ∧ r.scoring_logic = "A * 2"
        ∧ r.result = (match parseFloatModel (jsTrim content) with | .nan => .num 0 | v => v)
        ∧ r.status = "success"
        ∧ r.data_source = "protected_data"
        ∧ r.input_A = none := by
  intro jp content h
  have heq : parseTaskResult jp content = .outcome
      { scoring_logic := "A * 2"
        result := match parseFloatModel (jsTrim content) with | .nan => .num 0 | v => v
        status := "success"
        data_source := "protected_data"
        input_A := none
        error_message := none } := by
    unfold parseTaskResult
    rw [h]
  exact ⟨_, heq, rfl, rfl, rfl, rfl, rfl⟩

/-- C7 counterexample: the payload 84.0 is a valid JSON number document,
so JSON.parse succeeds and the parser returns the bare number 84 cast
as the result type — not the claimed structured fallback outcome. -/
theorem claim7_cex :
    parseTaskResult jsonParseStd "84.0" = .rawJson (.num (.num 84))
    ∧ (ParsedResult.rawJson (.num (.num 84)) ≠
        ParsedResult.outcome
          { scoring_logic := "A * 2", result := .num 84, status := "success"
            data_source := "protected_data", input_A := none, error_message := none }) :=
  ⟨by decide, fun h => nomatch h⟩

/-- C7 witness: the payload 84.0x fails the JSON decode and the fallback
yields value 84 with the fixed fields and no raw-input field. -/
theorem claim7_wit :
    jsonParseStd "84.0x" = none
    ∧ ∃ r, parseTaskResult jsonParseStd "84.0x" = .outcome r
        ∧ r.result = .num 84 ∧ r.status = "success"
        ∧ r.data_source = "protected_data" ∧ r.input_A = none := by
  refine ⟨rfl, ?_⟩
  obtain ⟨r, hr, _, hres, hst, hds, hia⟩ := claim7_fallback_outcome jsonParseStd "84.0x" rfl
  refine ⟨r, hr, ?_, hst, hds, hia⟩
  rw [hres]
  decide

/-- C1 (amended): when no fetched workerpool offer passes the code filter
(positive remaining volume and at least one of the TEE/SCONE bits),
triggerTEETask never returns a task handle and — with signing and the app
order succeeding — aborts with the wrapped no-TEE-pools error; and every
returned handle was matched against a workerpool order carrying at least
one of the two bits. The full two-bit confidential capability is not what
the selection enforces. -/
theorem claim1_no_silent_downgrade :
    (∀ o p, (∀ l, o.debugBook = some l → l.filter teeEligible = []) →
        (∀ l, o.generalBook = some l → l.filter teeEligible = []) →
        ∀ r, triggerTEETask o p ≠ .ok r)
    ∧ (∀ o p, (∀ l, o.debugBook = some l → l.filter teeEligible = []) →
        (∀ l, o.generalBook = some l → l.filter teeEligible = []) →
        o.signResult = .ok () →
        (∃ a, getAppOrder teeAppAddress o.appBook = .ok a) →
        triggerTEETask o p = .error ("Failed to trigger TEE task: " ++ noTeePoolsMsg))
    ∧ (∀ o p r, triggerTEETask o p = .ok r →
        ∃ w, getWorkerpoolOrder o.debugBook o.generalBook = .ok w ∧ hasTeeTag w.tag = true) := by
  refine ⟨?_, ?_, ?_⟩
  · intro o p hd hg r
    exact trigger_ne_ok_of_pool_error o p noTeePoolsMsg
      (getWorkerpoolOrder_noEligible _ _ hd hg) r
  · intro o p hd hg hs ha
    obtain ⟨a, ha⟩ := ha
    exact trigger_wrap_err o p noTeePoolsMsg
      (triggerCore_pool_err o p a noTeePoolsMsg hs ha (getWorkerpoolOrder_noEligible _ _ hd hg))
  · intro o p r hok
    cases hw : getWorkerpoolOrder o.debugBook o.generalBook with
    | error e => exact absurd hok (trigger_ne_ok_of_pool_error o p e hw r)
    | ok w =>
      refine ⟨w, rfl, ?_⟩
      obtain ⟨l, e, _, _, heq, helig⟩ := getWorkerpoolOrder_ok_inv _ _ w hw
      rw [← heq]
      simp only [hasTeeTag, bne_iff_ne, ne_eq]
      exact ((teeEligible_iff e).mp helig).2

/-- C1 counterexample: an order book in which no workerpool offer carries
both confidential bits (the only offer has tag 0x1) — the submission does
not abort: it matches against that offer and returns a task handle,
refuting the claim as stated. -/
theorem claim1_cex :
    triggerTEETask
      { appBook := some [⟨⟨"0xapp", 0, 1, 3⟩, 5⟩], debugBook := none,
        generalBook := some [⟨⟨"0xteeonlypool", 0, 1, 0⟩, 1⟩], datasetBook := none,
        signResult := .ok (), matchOrders := fun _ => .ok "0xdeal",
        computeTaskId := .ok "0xtask", dealTasks := .ok none }
      { inputValue := some 42, useProtectedData := false, protectedDataAddress := none }
      = .ok { taskId := "0xtask", dealId := "0xdeal", status := .pending }
    ∧ ((1 : Nat) &&& 3) ≠ 3 := ⟨rfl, by decide⟩

/-- C1 witness: an order book whose only workerpool offer has an empty
capability tag — the submission aborts with the wrapped no-TEE-pools
error. -/
theorem claim1_wit :
    triggerTEETask
      { appBook := some [⟨⟨"0xapp", 0, 1, 3⟩, 5⟩], debugBook := none,
        generalBook := some [⟨⟨"0xplainpool", 0, 0, 1⟩, 3⟩], datasetBook := none,
        signResult := .ok (), matchOrders := fun _ => .ok "0xdeal",
        computeTaskId := .ok "0xtask", dealTasks := .ok none }
      { inputValue := some 42, useProtectedData := false, protectedDataAddress := none }
      = .error ("Failed to trigger TEE task: " ++ noTeePoolsMsg) :=
  claim1_no_silent_downgrade.2.1
    { appBook := some [⟨⟨"0xapp", 0, 1, 3⟩, 5⟩], debugBook := none,
      generalBook := some [⟨⟨"0xplainpool", 0, 0, 1⟩, 3⟩], datasetBook := none,
      signResult := .ok (), matchOrders := fun _ => .ok "0xdeal",
      computeTaskId := .ok "0xtask", dealTasks := .ok none }
    { inputValue := some 42, useProtectedData := false, protectedDataAddress := none }
    (fun l h => nomatch h)
    (fun l h => by cases h; rfl)
    rfl ⟨⟨"0xapp", 0, 1, 3⟩, rfl⟩

/-- C4 (amended): the matching step is not retried — the submission
outcome depends only on the first matchOrders attempt, and when that
attempt fails with signing and both required orders resolved, the failure
surfaces immediately as the wrapped trigger error. -/
theorem claim4_no_match_retry :
    (∀ (o : TriggerOracle) (p : TriggerTEETaskParams) (f g : Nat → Except String String),
        f 0 = g 0 →
        triggerTEETask { o with matchOrders := f } p =
          triggerTEETask { o with matchOrders := g } p)
    ∧ (∀ o p m, o.signResult = .ok () →
        (∃ a, getAppOrder teeAppAddress o.appBook = .ok a) →
        (∃ w, getWorkerpoolOrder o.debugBook o.generalBook = .ok w) →
        o.matchOrders 0 = .error m →
        triggerTEETask o p = .error ("Failed to trigger TEE task: " ++ m)) := by
  constructor
  · intro o p f g h
    obtain ⟨ab, db, gb, dsb, sr, mo, ct, dt⟩ := o
    simp only [triggerTEETask, triggerTEETaskCore, h]
  · intro o p m hs ha hw hm
    obtain ⟨a, ha⟩ := ha
    obtain ⟨w, hw⟩ := hw
    have hcore := triggerCore_eval o p a w hs ha hw
    rw [hm] at hcore
    exact trigger_wrap_err o p m hcore

/-- C4 counterexample: the first matchOrders attempt fails while a second
attempt would succeed — the code surfaces the first failure immediately
instead of retrying with re-fetched offers, refuting the retry claim. -/
theorem claim4_cex :
    triggerTEETask
      { appBook := some [⟨⟨"0xapp", 0, 1, 3⟩, 5⟩], debugBook := none,
        generalBook := some [⟨⟨"0xteepool", 0, 3, 0⟩, 4⟩], datasetBook := none,
        signResult := .ok (),
        matchOrders := fun n => if n = 0 then .error "workerpool order fully consumed"
          else .ok "0xsecondDeal",
        computeTaskId := .ok "0xtask1", dealTasks := .ok none }
      { inputValue := some 42, useProtectedData := false, protectedDataAddress := none }
      = .error "Failed to trigger TEE task: workerpool order fully consumed"
    ∧ (if (1 : Nat) = 0 then (.error "workerpool order fully consumed" : Except String String)
        else .ok "0xsecondDeal") = .ok "0xsecondDeal" := ⟨rfl, rfl⟩

/-- C4 witness: a concrete failing first match attempt surfaces as the
wrapped trigger error. -/
theorem claim4_wit :
    triggerTEETask
      { appBook := some [⟨⟨"0xapp", 0, 1, 3⟩, 5⟩], debugBook := none,
        generalBook := some [⟨⟨"0xteepool", 0, 3, 0⟩, 4⟩], datasetBook := none,
        signResult := .ok (), matchOrders := fun _ => .error "matching reverted",
        computeTaskId := .ok "0xtask1", dealTasks := .ok none }
      { inputValue := some 42, useProtectedData := false, protectedDataAddress := none }
      = .error ("Failed to trigger TEE task: " ++ "matching reverted") :=
  claim4_no_match_retry.2
    { appBook := some [⟨⟨"0xapp", 0, 1, 3⟩, 5⟩], debugBook := none,
      generalBook := some [⟨⟨"0xteepool", 0, 3, 0⟩, 4⟩], datasetBook := none,
      signResult := .ok (), matchOrders := fun _ => .error "matching reverted",
      computeTaskId := .ok "0xtask1", dealTasks := .ok none }
    { inputValue := some 42, useProtectedData := false, protectedDataAddress := none }
    "matching reverted" rfl ⟨⟨"0xapp", 0, 1, 3⟩, rfl⟩ ⟨⟨"0xteepool", 0, 3, 0⟩, rfl⟩ rfl

/-- C8 (amended): task-id resolution uses the value of the deterministic
derivation whenever it does not throw — even an empty identifier, with no
emptiness check — and consults the deal task set exactly when the
derivation throws, taking its first entry; an empty or unavailable task
set makes the resolution, and hence the whole submission, fail with the
failed-to-get-task-id error. -/
theorem claim8_taskid_resolution :
    (∀ (d : Except String (Option (List String))) dealId t,
        resolveTaskId (.ok t) d dealId = .ok t)
    ∧ (∀ e (d : Except String (Option (List String))) dealId t ts,
        d = .ok (some (t :: ts)) →
        resolveTaskId (.error e) d dealId = .ok t)
    ∧ (∀ e (d : Except String (Option (List String))) dealId,
        (d = .ok (some []) ∨ d = .ok none ∨ ∃ e2, d = .error e2) →
        resolveTaskId (.error e) d dealId =
          .error ("Failed to get task ID for deal " ++ dealId))
    ∧ (∀ o p e dealId, o.signResult = .ok () →
        (∃ a, getAppOrder teeAppAddress o.appBook = .ok a) →
        (∃ w, getWorkerpoolOrder o.debugBook o.generalBook = .ok w) →
        o.matchOrders 0 = .ok dealId →
        o.computeTaskId = .error e →
        (o.dealTasks = .ok (some []) ∨ o.dealTasks = .ok none ∨ ∃ e2, o.dealTasks = .error e2) →
        triggerTEETask o p =
          .error ("Failed to trigger TEE task: " ++
            ("Failed to get task ID for deal " ++ dealId))) := by
  refine ⟨fun d dealId t => rfl, ?_, ?_, ?_⟩
  · intro e d dealId t ts hd
    subst hd
    rfl
  · intro e d dealId hd
    rcases hd with h | h | ⟨e2, h⟩ <;> subst h <;> rfl
  · intro o p e dealId hs ha hw hm hct hd
    obtain ⟨a, ha⟩ := ha
    obtain ⟨w, hw⟩ := hw
    have hres : resolveTaskId o.computeTaskId o.dealTasks dealId =
        .error ("Failed to get task ID for deal " ++ dealId) := by
      rw [hct]
      rcases hd with h | h | ⟨e2, h⟩ <;> rw [h] <;> rfl
    have hcore := triggerCore_eval o p a w hs ha hw
    rw [hm] at hcore
    dsimp only at hcore
    rw [hres] at hcore
    exact trigger_wrap_err o p _ hcore

/-- C8 counterexample: the derivation yields the empty identifier — the
code accepts it without consulting the nonempty task set of the deal and
returns a handle whose task id is empty, refuting both the fallback
condition (derivation throws or yields nothing) and the guarantee that no
handle lacks a job identifier. -/
theorem claim8_cex :
    triggerTEETask
      { appBook := some [⟨⟨"0xapp", 0, 1, 3⟩, 5⟩], debugBook := none,
        generalBook := some [⟨⟨"0xteepool", 0, 3, 0⟩, 4⟩], datasetBook := none,
        signResult := .ok (), matchOrders := fun _ => .ok "0xdeal",
        computeTaskId := .ok "", dealTasks := .ok (some ["0xrealtask"]) }
      { inputValue := some 42, useProtectedData := false, protectedDataAddress := none }
      = .ok { taskId := "", dealId := "0xdeal", status := .pending }
    ∧ ("" : String) ≠ "0xrealtask" := ⟨rfl, by decide⟩

/-- C8 witness: a throwing derivation with an unavailable task set fails
the submission with the wrapped failed-to-get-task-id error. -/
theorem claim8_wit :
    triggerTEETask
      { appBook := some [⟨⟨"0xapp", 0, 1, 3⟩, 5⟩], debugBook := none,
        generalBook := some [⟨⟨"0xteepool", 0, 3, 0⟩, 4⟩], datasetBook := none,
        signResult := .ok (), matchOrders := fun _ => .ok "0xdeal",
        computeTaskId := .error "derivation threw", dealTasks := .ok none }
      { inputValue := some 42, useProtectedData := false, protectedDataAddress := none }
      = .error ("Failed to trigger TEE task: " ++ ("Failed to get task ID for deal " ++ "0xdeal")) :=
  claim8_taskid_resolution.2.2.2
    { appBook := some [⟨⟨"0xapp", 0, 1, 3⟩, 5⟩], debugBook := none,
      generalBook := some [⟨⟨"0xteepool", 0, 3, 0⟩, 4⟩], datasetBook := none,
      signResult := .ok (), matchOrders := fun _ => .ok "0xdeal",
      computeTaskId := .error "derivation threw", dealTasks := .ok none }
    { inputValue := some 42, useProtectedData := false, protectedDataAddress := none }
    "derivation threw" "0xdeal" rfl ⟨⟨"0xapp", 0, 1, 3⟩, rfl⟩ ⟨⟨"0xteepool", 0, 3, 0⟩, rfl⟩
    rfl rfl (Or.inr (Or.inl rfl))

end IExecIntegration
